import Mathlib

/-!
Shallow embedding of the browser automation session engine of
`src/web/browser/main.py` (class `BrowserTool`): the session manager
(`_ensure_browser` / `_cleanup`), the page operation executors
(`Visit`, `FillForm`, `ExtractData`) and the change monitor
(`MonitorChanges`).

Modelling conventions:
* Raised Python exceptions are `Except.error msg` where `msg = str(e)`.
* The Playwright driver, the document and the wall clock are supplied by
  per-operation environment structures; operations are deterministic
  functions of the environment.
* The session manager's mutable fields (`self._browser`, `self._context`)
  and the set of open pages are an explicit `SessionState`, threaded
  through each operation exactly along the `try/finally` structure of the
  source: body, then `page.close()` (inner `finally`), then `_cleanup()`
  (outer `finally`).
* The monitor's wall clock is modelled at one-second granularity: each
  polling iteration advances it by `interval` seconds.  The loop carries
  fuel; for `interval ≥ 1` the fuel chosen by `MonitorChanges` never runs
  out (proved below), while `interval ≤ 0` — whose sub-second progress the
  one-second clock cannot represent — is left outside the model (`none`).
-/

namespace BrowserTool

/-- Events observable on the session manager, in the order they happen:
browser/context launch, `page.close()`, `context.close()`, `browser.close()`. -/
inductive Event where
  | launch (browser context : Nat)
  | pageClosed (page : Nat)
  | contextClosed (context : Nat)
  | browserClosed (browser : Nat)
  deriving Repr, DecidableEq

/-- The mutable state of a `BrowserTool` instance: `self._browser` and
`self._context` (handle ids, `none` = Python `None`), a supply of fresh
handle ids, the ids of currently open pages, and the log of lifecycle
events so far. -/
structure SessionState where
  browser : Option Nat
  context : Option Nat
  nextId : Nat
  openPages : List Nat
  log : List Event
  deriving Repr, DecidableEq

/-- The state of a freshly constructed `BrowserTool` (`__init__` sets
`self._browser = None` and `self._context = None`). -/
def initState : SessionState :=
  { browser := none, context := none, nextId := 0, openPages := [], log := [] }

/-- `BrowserTool._ensure_browser`: if `self._browser` is unset, launch a
browser and open one context; otherwise leave everything unchanged. -/
def ensureBrowser (s : SessionState) : SessionState :=
  match s.browser with
  | none =>
      { s with
        browser := some s.nextId
        context := some (s.nextId + 1)
        nextId := s.nextId + 2
        log := s.log ++ [Event.launch s.nextId (s.nextId + 1)] }
  | some _ => s

/-- `BrowserTool._cleanup`: `if self._context: await self._context.close()`,
then `if self._browser: await self._browser.close()`, then set both to
`None`. -/
def cleanup (s : SessionState) : SessionState :=
  let log₁ := match s.context with
    | some c => s.log ++ [Event.contextClosed c]
    | none => s.log
  let log₂ := match s.browser with
    | some b => log₁ ++ [Event.browserClosed b]
    | none => log₁
  { s with context := none, browser := none, log := log₂ }

/-- `self._context.new_page()`: allocates a fresh page handle. -/
def newPage (s : SessionState) : Nat × SessionState :=
  (s.nextId, { s with nextId := s.nextId + 1, openPages := s.openPages ++ [s.nextId] })

/-- `page.close()` (the inner `finally` of every operation). -/
def closePage (p : Nat) (s : SessionState) : SessionState :=
  { s with openPages := s.openPages.erase p, log := s.log ++ [Event.pageClosed p] }

/-- The `try/except/finally` skeleton shared by every top-level operation:
`_ensure_browser()`, open a page, run the body, close the page (inner
`finally`), and `_cleanup()` (outer `finally`).  An operation's result —
including the `{"error": str(e)}` dict produced by the outer `except` —
depends only on its environment, so it is passed in as `body`; the session
state transitions are exactly those of the source's control flow. -/
def runOp {α : Type} (body : α) (s : SessionState) : α × SessionState :=
  let s₁ := ensureBrowser s
  let (p, s₂) := newPage s₁
  let s₃ := closePage p s₂
  let s₄ := cleanup s₃
  (body, s₄)

/-! ### Visit -/

/-- The driver primitives `Visit` consumes, as seen from the page it opens:
navigation, selector wait, `page.title()`, `page.evaluate(script)`,
`page.content()`, `page.screenshot(path)`, plus the configuration
(`self.screenshots_dir`) and the timestamp the Artifact Writer formats.
Each may raise (`Except.error`). -/
structure VisitEnv where
  goto : String → Except String Unit
  waitForSelector : String → Except String Unit
  title : Except String String
  evaluate : String → Except String String
  content : Except String String
  screenshot : String → Except String Unit
  fileTimestamp : String
  screenshotsDir : String

/-- The success dict of `Visit`: `success`, `url`, `title` always;
`text`, `html`, `javascript_result`, `screenshot_path` only when the
corresponding flag/argument was given (`none` = key absent). -/
structure VisitResult where
  success : Bool
  url : String
  title : String
  text : Option String
  html : Option String
  javascript_result : Option String
  screenshot_path : Option String
  deriving Repr, DecidableEq

/-- The body of `BrowserTool.Visit` (the inner `try` block): navigate,
optionally wait for a selector, read the title, then the optional
extractions in source order. -/
def visitBody (env : VisitEnv) (url : String) (wait_for : Option String)
    (extract_text extract_html screenshot : Bool) (javascript : Option String) :
    Except String VisitResult := do
  env.goto url
  match wait_for with
  | some sel => env.waitForSelector sel
  | none => pure ()
  let title ← env.title
  let text ← if extract_text then do
      let t ← env.evaluate "() => document.body.innerText"
      pure (some t)
    else pure none
  let html ← if extract_html then do
      let h ← env.content
      pure (some h)
    else pure none
  let jsres ← match javascript with
    | some js => do
        let r ← env.evaluate js
        pure (some r)
    | none => pure none
  let shot ← if screenshot then do
      let path := env.screenshotsDir ++ "/screenshot_" ++ env.fileTimestamp ++ ".png"
      env.screenshot path
      pure (some path)
    else pure none
  pure { success := true, url := url, title := title, text := text,
         html := html, javascript_result := jsres, screenshot_path := shot }

/-- `BrowserTool.Visit`: the body wrapped in the shared
`try/except/finally` skeleton. -/
def Visit (env : VisitEnv) (url : String) (wait_for : Option String)
    (extract_text extract_html screenshot : Bool) (javascript : Option String)
    (s : SessionState) : Except String VisitResult × SessionState :=
  runOp (visitBody env url wait_for extract_text extract_html screenshot javascript) s

/-! ### ExtractData -/

/-- An element as `ExtractData` observes it: its inner text and its
attributes (an attribute present with value `""` is distinct from an
absent one, as with Playwright's `get_attribute`). -/
structure ExtractElement where
  innerText : String
  attributes : List (String × String)
  deriving Repr, DecidableEq

/-- `element.get_attribute(attr)`: `none` = Python `None` (attribute
missing). -/
def getAttribute (el : ExtractElement) (attr : String) : Option String :=
  el.attributes.lookup attr

/-- A value in the `data`/`attributes` maps of `ExtractData`'s result: a
scalar string or a list of strings. -/
inductive StrOrList where
  | scalar (s : String)
  | list (xs : List String)
  deriving Repr, DecidableEq

/-- The collapse rule `texts[0] if len(texts) == 1 else texts`. -/
def collapse (xs : List String) : StrOrList :=
  match xs with
  | [x] => StrOrList.scalar x
  | _ => StrOrList.list xs

/-- The driver primitives `ExtractData` consumes: navigation, selector
wait, and `page.query_selector_all` (which yields element objects, never
`None`, so the source's `if element:` guard inside the loops never
filters anything).  Per-element reads are modelled as total. -/
structure ExtractEnv where
  goto : String → Except String Unit
  waitForSelector : String → Except String Unit
  queryAll : String → List ExtractElement

/-- The attribute-values loop body for one attribute selector:
`value = await element.get_attribute(attribute); if value:
values.append(value)` — Python truthiness drops both `None` and `""`. -/
def attributeValues (env : ExtractEnv) (sel attr : String) : List String :=
  (env.queryAll sel).filterMap (fun el =>
    match getAttribute el attr with
    | some v => if v = "" then none else some v
    | none => none)

/-- The success dict of `ExtractData`: `success`, `url`, `data`, and
`attributes` only when `extract_attributes` was given. -/
structure ExtractResult where
  success : Bool
  url : String
  data : List (String × StrOrList)
  attributes : Option (List (String × StrOrList))
  deriving Repr, DecidableEq

/-- The body of `BrowserTool.ExtractData` (the inner `try` block). -/
def extractDataBody (env : ExtractEnv) (url : String)
    (selectors : List (String × String)) (wait_for : Option String)
    (extract_attributes : Option (List (String × String))) :
    Except String ExtractResult := do
  env.goto url
  match wait_for with
  | some sel => env.waitForSelector sel
  | none => pure ()
  let data := selectors.map (fun p =>
    (p.1, collapse ((env.queryAll p.2).map ExtractElement.innerText)))
  let attrs := extract_attributes.map (fun l =>
    l.map (fun p => (p.1, collapse (attributeValues env p.1 p.2))))
  pure { success := true, url := url, data := data, attributes := attrs }

/-- `BrowserTool.ExtractData`: the body wrapped in the shared
`try/except/finally` skeleton. -/
def ExtractData (env : ExtractEnv) (url : String)
    (selectors : List (String × String)) (wait_for : Option String)
    (extract_attributes : Option (List (String × String)))
    (s : SessionState) : Except String ExtractResult × SessionState :=
  runOp (extractDataBody env url selectors wait_for extract_attributes) s

/-! ### FillForm -/

/-- A form element as the DOM Interaction Layer observes and mutates it:
`tagName` is the already-lowercased `el.tagName.toLowerCase()`,
`inputType` the already-lowercased `el.type?.toLowerCase()` (`none` when
the element has no `type`), plus the mutable checked state, text value
and selected option. -/
structure FormElement where
  tagName : String
  inputType : Option String
  checked : Bool
  value : String
  selected : Option String
  deriving Repr, DecidableEq

/-- A live document as `FillForm` sees it: its location, its title, and
its elements keyed by the selector that resolves them. -/
structure FormPage where
  url : String
  title : String
  elements : List (String × FormElement)
  deriving Repr, DecidableEq

/-- `page.wait_for_selector(sel, timeout=...)` against a document: the
element when the selector resolves, a raised timeout otherwise. -/
def waitForSelector (doc : FormPage) (sel : String) : Except String FormElement :=
  match doc.elements.lookup sel with
  | some el => Except.ok el
  | none => Except.error ("Timeout exceeded waiting for selector " ++ sel)

/-- Python's `str.lower()` (on the ASCII strings the dispatch compares):
character-wise lowering over the underlying character list. -/
def lower (v : String) : String := String.mk (v.data.map Char.toLower)

/-- The per-field dispatch of `FillForm`: `select` tag →
`select_option(value=value)`; input type `checkbox`/`radio` →
`check()` when `value.lower() in ["true", "1", "yes"]` else `uncheck()`;
anything else → `fill(value)`. -/
def fillField (el : FormElement) (value : String) : FormElement :=
  if el.tagName = "select" then
    { el with selected := some value }
  else if el.inputType = some "checkbox" ∨ el.inputType = some "radio" then
    if lower value = "true" ∨ lower value = "1" ∨ lower value = "yes" then
      { el with checked := true }
    else
      { el with checked := false }
  else
    { el with value := value }

/-- Replace the element resolved by `sel` in the document. -/
def setElement (doc : FormPage) (sel : String) (el : FormElement) : FormPage :=
  { doc with elements := doc.elements.map (fun p => if p.1 = sel then (p.1, el) else p) }

/-- The `for selector, value in form_data.items():` loop of `FillForm`,
in the caller-supplied order: resolve each field (raising on a missing
element) and apply the per-field dispatch. -/
def fillFields (doc : FormPage) (form_data : List (String × String)) :
    Except String FormPage :=
  form_data.foldlM (fun d p => do
    let el ← waitForSelector d p.1
    pure (setElement d p.1 (fillField el p.2))) doc

/-- The driver primitives `FillForm` consumes: navigation yields the
initial document, `submit.click()` yields the post-submit document (a
navigation may have happened), plus screenshot/config as for `Visit`. -/
structure FillFormEnv where
  goto : String → Except String FormPage
  click : FormPage → Except String FormPage
  screenshot : String → Except String Unit
  fileTimestamp : String
  screenshotsDir : String

/-- The success dict of `FillForm`: `success`, `url`, `title`, and
`screenshot_path` only when requested. -/
structure FillFormResult where
  success : Bool
  url : String
  title : String
  screenshot_path : Option String
  deriving Repr, DecidableEq

/-- The body of `BrowserTool.FillForm` (the inner `try` block): navigate,
fill every field in order, resolve and click the submit button, optionally
wait for a post-submit selector, then build the result dict — `url` is the
function's `url` argument, `title` is `page.title()` on the post-submit
document. -/
def fillFormBody (env : FillFormEnv) (url : String)
    (form_data : List (String × String)) (submit_button : String)
    (wait_after_submit : Option String) (screenshot_result : Bool) :
    Except String FillFormResult := do
  let doc₀ ← env.goto url
  let doc₁ ← fillFields doc₀ form_data
  let _ ← waitForSelector doc₁ submit_button
  let doc₂ ← env.click doc₁
  match wait_after_submit with
  | some sel => do
      let _ ← waitForSelector doc₂ sel
      pure ()
  | none => pure ()
  let shot ← if screenshot_result then do
      let path := env.screenshotsDir ++ "/form_result_" ++ env.fileTimestamp ++ ".png"
      env.screenshot path
      pure (some path)
    else pure none
  pure { success := true, url := url, title := doc₂.title, screenshot_path := shot }

/-- `BrowserTool.FillForm`: the body wrapped in the shared
`try/except/finally` skeleton. -/
def FillForm (env : FillFormEnv) (url : String)
    (form_data : List (String × String)) (submit_button : String)
    (wait_after_submit : Option String) (screenshot_result : Bool)
    (s : SessionState) : Except String FillFormResult × SessionState :=
  runOp (fillFormBody env url form_data submit_button wait_after_submit screenshot_result) s

/-! ### MonitorChanges -/

/-- One entry of the `changes` list: either a detected change
`{timestamp, old_content, new_content, screenshot_path?}` or a recorded
poll failure `{timestamp, error}`. -/
inductive ChangeRecord where
  | change (timestamp old_content new_content : String)
      (screenshot_path : Option String)
  | error (timestamp message : String)
  deriving Repr, DecidableEq

/-- The driver primitives `MonitorChanges` consumes.  The wall clock is
discrete (whole seconds since `start_time`); `readContent t` is the
`page.evaluate` of `document.querySelector(selector).innerText` at
elapsed second `t`, and the timestamp formatters are functions of the
same clock. -/
structure MonitorEnv where
  goto : String → Except String Unit
  waitForSelector : String → Except String Unit
  readContent : Nat → Except String String
  screenshot : Nat → String → Except String Unit
  isoTimestamp : Nat → String
  fileTimestamp : Nat → String
  screenshotsDir : String

/-- The inner `try` block of one polling iteration, at elapsed second `t`:
re-read the content; on a change, optionally screenshot, and return the
new record and the new baseline; on no change return no record and the
old baseline.  Any raised failure (read or screenshot) is the iteration's
`Except.error`. -/
def pollBody (env : MonitorEnv) (screenshot_changes : Bool)
    (baseline : String) (t : Nat) :
    Except String (Option ChangeRecord × String) := do
  let current ← env.readContent t
  if current ≠ baseline then do
    let shot ← if screenshot_changes then do
        let path := env.screenshotsDir ++ "/change_" ++ env.fileTimestamp t ++ ".png"
        env.screenshot t path
        pure (some path)
      else pure none
    pure (some (ChangeRecord.change (env.isoTimestamp t) baseline current shot), current)
  else
    pure (none, baseline)

/-- What the polling loop accumulates: the `changes` list, the elapsed
whole seconds at exit, and how many poll iterations (sleep + read
attempt) were executed. -/
structure LoopOut where
  changes : List ChangeRecord
  elapsed : Nat
  polls : Nat
  deriving Repr, DecidableEq

/-- The `while (datetime.now() - start_time).total_seconds() < max_time:`
loop.  Each iteration sleeps `interval` seconds (advancing the clock by
`interval.toNat`; `asyncio.sleep` of a non-positive delay returns
immediately), runs the poll body, and on a raised failure appends an
`error` record and keeps the baseline.  `fuel` bounds the recursion;
`none` means the fuel ran out, which `MonitorChanges`'s choice of fuel
makes impossible for `interval ≥ 1` (proved below). -/
def monitorLoop (env : MonitorEnv) (interval max_time : Int)
    (screenshot_changes : Bool) (baseline : String)
    (changes : List ChangeRecord) (elapsed polls : Nat) :
    Nat → Option LoopOut
  | 0 =>
      if (elapsed : Int) < max_time then none
      else some { changes := changes, elapsed := elapsed, polls := polls }
  | fuel + 1 =>
      if (elapsed : Int) < max_time then
        let t := elapsed + interval.toNat
        match pollBody env screenshot_changes baseline t with
        | Except.ok (rec?, baseline') =>
            monitorLoop env interval max_time screenshot_changes baseline'
              (changes ++ rec?.toList) t (polls + 1) fuel
        | Except.error e =>
            monitorLoop env interval max_time screenshot_changes baseline
              (changes ++ [ChangeRecord.error (env.isoTimestamp t) e]) t (polls + 1) fuel
      else some { changes := changes, elapsed := elapsed, polls := polls }

/-- The success dict of `MonitorChanges`: `success`, `url`, `selector`,
`monitoring_duration = int(elapsed seconds)`, `changes`. -/
structure MonitorResult where
  success : Bool
  url : String
  selector : String
  monitoring_duration : Nat
  changes : List ChangeRecord
  deriving Repr, DecidableEq

/-- The body of `BrowserTool.MonitorChanges`: the INIT phase (navigate,
wait for the selector, read the baseline at second 0) raises to the outer
`except` on failure; then the polling loop runs with fuel
`max_time.toNat + 1`.  `none` = the one-second clock cannot model the run
(`interval ≤ 0`). -/
def monitorBody (env : MonitorEnv) (url selector : String)
    (interval max_time : Int) (screenshot_changes : Bool) :
    Option (Except String MonitorResult) :=
  match (do
    env.goto url
    env.waitForSelector selector
    env.readContent 0 : Except String String) with
  | Except.error e => some (Except.error e)
  | Except.ok initial_content =>
    match monitorLoop env interval max_time screenshot_changes initial_content
        [] 0 0 (max_time.toNat + 1) with
    | none => none
    | some out => some (Except.ok
        { success := true, url := url, selector := selector,
          monitoring_duration := out.elapsed, changes := out.changes })

/-- `BrowserTool.MonitorChanges`: the body wrapped in the shared
`try/except/finally` skeleton. -/
def MonitorChanges (env : MonitorEnv) (url selector : String)
    (interval max_time : Int) (screenshot_changes : Bool)
    (s : SessionState) : Option (Except String MonitorResult) × SessionState :=
  runOp (monitorBody env url selector interval max_time screenshot_changes) s

/-! ### Concrete pages and environments used to instantiate the theorems -/

/-- An unchecked checkbox input. -/
def checkboxEl : FormElement :=
  { tagName := "input", inputType := some "checkbox", checked := false,
    value := "", selected := none }

/-- An empty text input. -/
def textEl : FormElement :=
  { tagName := "input", inputType := some "text", checked := false,
    value := "", selected := none }

/-- A submit button. -/
def submitEl : FormElement :=
  { tagName := "button", inputType := some "submit", checked := false,
    value := "", selected := none }

/-- A form document at `https://example.com/form`. -/
def formPage : FormPage :=
  { url := "https://example.com/form", title := "Form",
    elements := [("#name", textEl), ("#agree", checkboxEl), ("#submit", submitEl)] }

/-- The confirmation document the submit click navigates to: its location
differs from the form's url. -/
def donePage : FormPage :=
  { url := "https://example.com/done", title := "Thanks", elements := [] }

/-- A `FillForm` driver where navigation lands on `formPage` and the
submit click navigates to `donePage`. -/
def envFill : FillFormEnv :=
  { goto := fun _ => Except.ok formPage
    click := fun _ => Except.ok donePage
    screenshot := fun _ => Except.ok ()
    fileTimestamp := "20250101_000000"
    screenshotsDir := "./screenshots" }

/-- A heading element. -/
def h1El : ExtractElement := { innerText := "Hello", attributes := [("id", "main")] }

/-- Two list items, both lacking a `data-id` attribute. -/
def liEl₁ : ExtractElement := { innerText := "one", attributes := [] }

/-- Second list item. -/
def liEl₂ : ExtractElement := { innerText := "two", attributes := [] }

/-- An anchor whose `href` attribute is present but empty. -/
def linkEl : ExtractElement := { innerText := "home", attributes := [("href", "")] }

/-- An `ExtractData` driver: `h1` matches one element, `li` two, `a.link`
one anchor with an empty `href`, and anything else none. -/
def envExtract : ExtractEnv :=
  { goto := fun _ => Except.ok ()
    waitForSelector := fun _ => Except.ok ()
    queryAll := fun sel =>
      if sel = "h1" then [h1El]
      else if sel = "li" then [liEl₁, liEl₂]
      else if sel = "a.link" then [linkEl]
      else [] }

/-- A `Visit` driver where every primitive succeeds. -/
def envVisit : VisitEnv :=
  { goto := fun _ => Except.ok ()
    waitForSelector := fun _ => Except.ok ()
    title := Except.ok "Example"
    evaluate := fun _ => Except.ok "body text"
    content := Except.ok "<html></html>"
    screenshot := fun _ => Except.ok ()
    fileTimestamp := "20250101_000000"
    screenshotsDir := "./screenshots" }

/-- A `Visit` driver whose navigation raises. -/
def envVisitFail : VisitEnv :=
  { envVisit with goto := fun _ => Except.error "net::ERR_NAME_NOT_RESOLVED" }

/-- An `ExtractData` driver whose navigation raises. -/
def envExtractFail : ExtractEnv :=
  { envExtract with goto := fun _ => Except.error "net::ERR_NAME_NOT_RESOLVED" }

/-- A `FillForm` driver whose navigation raises. -/
def envFillFail : FillFormEnv :=
  { envFill with goto := fun _ => Except.error "net::ERR_NAME_NOT_RESOLVED" }

/-- A monitor driver over content that never changes. -/
def envMonitor : MonitorEnv :=
  { goto := fun _ => Except.ok ()
    waitForSelector := fun _ => Except.ok ()
    readContent := fun _ => Except.ok "$19.99"
    screenshot := fun _ _ => Except.ok ()
    isoTimestamp := fun t => "2025-01-01T00:00:0" ++ toString t
    fileTimestamp := fun t => "20250101_00000" ++ toString t
    screenshotsDir := "./screenshots" }

/-- A monitor driver whose read raises at elapsed second 1 and succeeds,
unchanged, at every other second. -/
def envMonitorFlaky : MonitorEnv :=
  { envMonitor with
    readContent := fun t =>
      if t = 1 then Except.error "Execution context was destroyed"
      else Except.ok "$19.99" }

/-- A monitor driver whose initial navigation raises. -/
def envMonitorFail : MonitorEnv :=
  { envMonitor with goto := fun _ => Except.error "net::ERR_NAME_NOT_RESOLVED" }

/-- The released-session postcondition a top-level call must establish,
starting from an idle state `s`: both handles cleared, no page open, the
log extended by launch, page close, context close, browser close in that
order, and a subsequent `_ensure_browser` launching a fresh browser
rather than reusing a stale handle. -/
def sessionReleased (s s' : SessionState) : Prop :=
  s'.browser = none ∧ s'.context = none ∧ s'.openPages = [] ∧
  s'.log = s.log ++ [Event.launch s.nextId (s.nextId + 1),
    Event.pageClosed (s.nextId + 2), Event.contextClosed (s.nextId + 1),
    Event.browserClosed s.nextId] ∧
  (ensureBrowser s').browser = some s'.nextId ∧
  (ensureBrowser s').log = s'.log ++ [Event.launch s'.nextId (s'.nextId + 1)]

/-! ### Session lifecycle theorems -/

/-- The shared `try/except/finally` skeleton releases everything:
whatever the body did, starting from an idle session state the call ends
with both handles cleared, the page closed before the context and the
context before the browser. -/
theorem runOp_releases {α : Type} (body : α) (s : SessionState)
    (hb : s.browser = none) (hp : s.openPages = []) :
    sessionReleased s (runOp body s).2 := by
  rcases s with ⟨b, c, n, op, L⟩
  simp only [SessionState.browser] at hb
  simp only [SessionState.openPages] at hp
  subst hb; subst hp
  simp [sessionReleased, runOp, ensureBrowser, newPage, closePage, cleanup,
    List.append_assoc]

/-- C1: every top-level operation (`Visit`, `FillForm`, `ExtractData`,
`MonitorChanges`), whether its body succeeded or raised (the body's
outcome is an arbitrary value of the environment), closes the page and
then tears the session down — context and browser handles closed and
cleared — before returning, so no session or page handle survives the
call and a subsequent `_ensure_browser` launches a fresh session. -/
theorem operations_release_session (s : SessionState)
    (hb : s.browser = none) (hp : s.openPages = [])
    (envV : VisitEnv) (envE : ExtractEnv) (envF : FillFormEnv) (envM : MonitorEnv)
    (url submit_button selector : String)
    (wait_for wait_after_submit javascript : Option String)
    (extract_text extract_html screenshot screenshot_result screenshot_changes : Bool)
    (form_data selectors : List (String × String))
    (extract_attributes : Option (List (String × String)))
    (interval max_time : Int) :
    sessionReleased s
      (Visit envV url wait_for extract_text extract_html screenshot javascript s).2 ∧
    sessionReleased s
      (FillForm envF url form_data submit_button wait_after_submit screenshot_result s).2 ∧
    sessionReleased s
      (ExtractData envE url selectors wait_for extract_attributes s).2 ∧
    sessionReleased s
      (MonitorChanges envM url selector interval max_time screenshot_changes s).2 :=
  ⟨runOp_releases _ s hb hp, runOp_releases _ s hb hp,
   runOp_releases _ s hb hp, runOp_releases _ s hb hp⟩

/-- Closed instance of `operations_release_session` at concrete inputs. -/
theorem operations_release_session_witness :
    sessionReleased initState
      (Visit envVisit "https://example.com" none true false false none initState).2 ∧
    sessionReleased initState
      (FillForm envFill "https://example.com/form" [("#name", "Alice")] "#submit"
        none false initState).2 ∧
    sessionReleased initState
      (ExtractData envExtract "https://example.com" [("title", "h1")] none none
        initState).2 ∧
    sessionReleased initState
      (MonitorChanges envMonitor "https://example.com" ".price" 1 3 false initState).2 :=
  operations_release_session initState rfl rfl envVisit envExtract envFill envMonitor
    "https://example.com" "#submit" ".price" none none none
    true false false false false [("#name", "Alice")] [("title", "h1")] none 1 3

/-- C9: `_ensure_browser` is idempotent — with no active session it
launches a browser and opens one context, with an active session it
returns the state unchanged (no second launch event) — and `_cleanup`
closes the context then the browser, clears both handles, and is a no-op
when run again on an already-torn-down state. -/
theorem ensureSession_idempotent_teardown_safe :
    (∀ s : SessionState, s.browser = none →
      (ensureBrowser s).browser = some s.nextId ∧
      (ensureBrowser s).context = some (s.nextId + 1) ∧
      (ensureBrowser s).log = s.log ++ [Event.launch s.nextId (s.nextId + 1)]) ∧
    (∀ (s : SessionState) (b : Nat), s.browser = some b → ensureBrowser s = s) ∧
    (∀ s : SessionState, ensureBrowser (ensureBrowser s) = ensureBrowser s) ∧
    (∀ (s : SessionState) (b c : Nat), s.browser = some b → s.context = some c →
      cleanup s = { s with
        browser := none
        context := none
        log := s.log ++ [Event.contextClosed c, Event.browserClosed b] }) ∧
    (∀ s : SessionState, (cleanup s).browser = none ∧ (cleanup s).context = none) ∧
    (∀ s : SessionState, cleanup (cleanup s) = cleanup s) := by
  refine ⟨?_, ?_, ?_, ?_, ?_, ?_⟩
  · intro s h
    rcases s with ⟨b, c, n, op, L⟩
    simp only [SessionState.browser] at h
    subst h
    simp [ensureBrowser]
  · intro s b h
    rcases s with ⟨b', c, n, op, L⟩
    simp only [SessionState.browser] at h
    subst h
    simp [ensureBrowser]
  · intro s
    rcases s with ⟨b, c, n, op, L⟩
    cases b <;> simp [ensureBrowser]
  · intro s b c hb hc
    rcases s with ⟨b', c', n, op, L⟩
    simp only [SessionState.browser] at hb
    simp only [SessionState.context] at hc
    subst hb; subst hc
    simp [cleanup]
  · intro s
    rcases s with ⟨b, c, n, op, L⟩
    simp [cleanup]
  · intro s
    rcases s with ⟨b, c, n, op, L⟩
    simp [cleanup]

/-- Closed instance of `ensureSession_idempotent_teardown_safe`:
idempotence and safe double teardown at concrete states. -/
theorem ensureSession_idempotent_teardown_safe_witness :
    (ensureBrowser initState).browser = some 0 ∧
    ensureBrowser (ensureBrowser initState) = ensureBrowser initState ∧
    ensureBrowser { initState with browser := some 5 } =
      { initState with browser := some 5 } ∧
    cleanup { initState with browser := some 0, context := some 1 } =
      { { initState with browser := some 0, context := some 1 } with
        browser := none
        context := none
        log := [Event.contextClosed 1, Event.browserClosed 0] } ∧
    cleanup (cleanup initState) = cleanup initState :=
  ⟨(ensureSession_idempotent_teardown_safe.1 initState rfl).1,
   ensureSession_idempotent_teardown_safe.2.2.1 initState,
   ensureSession_idempotent_teardown_safe.2.1 _ 5 rfl,
   ensureSession_idempotent_teardown_safe.2.2.2.1 _ 0 1 rfl rfl,
   ensureSession_idempotent_teardown_safe.2.2.2.2.2 initState⟩

/-! ### ExtractData theorems -/

/-- Collapsing a one-element list yields the scalar. -/
theorem collapse_singleton (x : String) : collapse [x] = StrOrList.scalar x := rfl

/-- Collapsing a list whose length is not one yields the list itself. -/
theorem collapse_length_ne_one (xs : List String) (h : xs.length ≠ 1) :
    collapse xs = StrOrList.list xs := by
  match xs with
  | [] => rfl
  | [x] => simp at h
  | x :: y :: t => rfl

/-- When navigation and the optional wait succeed, `ExtractData`'s body
returns the success dict whose `data` and `attributes` maps apply the
collapse rule independently per named selector. -/
theorem extractDataBody_ok (env : ExtractEnv) (url : String)
    (selectors : List (String × String)) (wait_for : Option String)
    (ea : Option (List (String × String)))
    (hgoto : env.goto url = Except.ok ())
    (hwait : ∀ w, wait_for = some w → env.waitForSelector w = Except.ok ()) :
    extractDataBody env url selectors wait_for ea = Except.ok
      { success := true, url := url
        data := selectors.map (fun p =>
          (p.1, collapse ((env.queryAll p.2).map ExtractElement.innerText)))
        attributes := ea.map (fun l =>
          l.map (fun p => (p.1, collapse (attributeValues env p.1 p.2)))) } := by
  cases wait_for with
  | none => simp [extractDataBody, hgoto, Bind.bind, Except.bind, Pure.pure, Except.pure]
  | some w =>
    simp [extractDataBody, hgoto, hwait w rfl, Bind.bind, Except.bind, Pure.pure,
      Except.pure]

/-- C2: for every `ExtractData` call and named text selector, one match
yields the element's inner text as a scalar, `N ≠ 1` matches yield the
ordered list of the `N` inner texts (the empty list for zero matches),
independently per named selector. -/
theorem extractData_scalar_list_collapse (env : ExtractEnv) (url : String)
    (selectors : List (String × String)) (wait_for : Option String)
    (ea : Option (List (String × String))) (s : SessionState)
    (hgoto : env.goto url = Except.ok ())
    (hwait : ∀ w, wait_for = some w → env.waitForSelector w = Except.ok ()) :
    ∃ r, (ExtractData env url selectors wait_for ea s).1 = Except.ok r ∧
      r.data = selectors.map (fun p =>
        (p.1, collapse ((env.queryAll p.2).map ExtractElement.innerText))) ∧
      (∀ name sel el, (name, sel) ∈ selectors → env.queryAll sel = [el] →
        (name, StrOrList.scalar el.innerText) ∈ r.data) ∧
      (∀ name sel, (name, sel) ∈ selectors → (env.queryAll sel).length ≠ 1 →
        (name, StrOrList.list ((env.queryAll sel).map ExtractElement.innerText)) ∈ r.data ∧
        ((env.queryAll sel).map ExtractElement.innerText).length =
          (env.queryAll sel).length) := by
  refine ⟨_, by simpa [ExtractData, runOp] using
    extractDataBody_ok env url selectors wait_for ea hgoto hwait, rfl, ?_, ?_⟩
  · intro name sel el hmem hq
    have : (name, collapse ((env.queryAll sel).map ExtractElement.innerText)) ∈
        selectors.map (fun p =>
          (p.1, collapse ((env.queryAll p.2).map ExtractElement.innerText))) :=
      List.mem_map_of_mem _ hmem
    simpa [hq, collapse_singleton] using this
  · intro name sel hmem hne
    constructor
    · have : (name, collapse ((env.queryAll sel).map ExtractElement.innerText)) ∈
          selectors.map (fun p =>
            (p.1, collapse ((env.queryAll p.2).map ExtractElement.innerText))) :=
        List.mem_map_of_mem _ hmem
      rwa [collapse_length_ne_one _ (by simpa using hne)] at this
    · simp

/-- Closed instance of `extractData_scalar_list_collapse`: one `h1`
match collapses to a scalar, two `li` matches to a two-element list,
zero `.absent` matches to `[]`. -/
theorem extractData_scalar_list_collapse_witness :
    ∃ r, (ExtractData envExtract "https://example.com"
        [("title", "h1"), ("items", "li"), ("missing", ".absent")] none none
        initState).1 = Except.ok r ∧
      ("title", StrOrList.scalar "Hello") ∈ r.data ∧
      ("items", StrOrList.list ["one", "two"]) ∈ r.data ∧
      ("missing", StrOrList.list []) ∈ r.data := by
  obtain ⟨r, h1, h2, -, -⟩ := extractData_scalar_list_collapse envExtract
    "https://example.com" [("title", "h1"), ("items", "li"), ("missing", ".absent")]
    none none initState rfl (fun w h => nomatch h)
  refine ⟨r, h1, ?_, ?_, ?_⟩ <;> rw [h2] <;> decide

/-- The attribute-values filter drops exactly the missing (`None`) and
empty-string values: Python's `if value:` truthiness test. -/
theorem attributeValues_filter (env : ExtractEnv) (sel attr : String) :
    attributeValues env sel attr =
      ((env.queryAll sel).filterMap (fun el => getAttribute el attr)).filter
        (fun v => v ≠ "") := by
  show (env.queryAll sel).filterMap _ = _
  induction env.queryAll sel with
  | nil => rfl
  | cons e t ih =>
    cases h : getAttribute e attr with
    | none => simp [List.filterMap_cons, h, ih]
    | some v =>
      by_cases hv : v = "" <;>
        simp [List.filterMap_cons, h, hv, ih, List.filter_cons]

/-- C7 counterexample: claim says only null/missing attribute values are
dropped before the collapse, so a single matched anchor whose `href` is
present but empty should collapse to the scalar `""`; the code drops the
empty string too and returns the empty list. -/
theorem extractData_attribute_empty_counterexample :
    (ExtractData envExtract "https://example.com" [] none
        (some [("a.link", "href")]) initState).1 =
      Except.ok { success := true
                  url := "https://example.com"
                  data := []
                  attributes := some [("a.link", StrOrList.list [])] } ∧
    envExtract.queryAll "a.link" = [linkEl] ∧
    getAttribute linkEl "href" = some "" ∧
    StrOrList.list [] ≠ StrOrList.scalar "" := by
  refine ⟨?_, by decide, by decide, by decide⟩
  have h := extractDataBody_ok envExtract "https://example.com" [] none
    (some [("a.link", "href")]) rfl (fun w hw => nomatch hw)
  simpa [ExtractData, runOp] using h

/-- C7 (amended): for every `ExtractData` call with an attribute-selector
map, all matched elements' named attribute values are read, the values
that are missing or empty strings (Python falsy) are dropped, and the
scalar/list collapse rule is applied to the filtered list; when all
matched elements lack the attribute the result is the empty list. -/
theorem extractData_attribute_filter (env : ExtractEnv) (url : String)
    (selectors : List (String × String)) (wait_for : Option String)
    (attrs : List (String × String)) (s : SessionState)
    (hgoto : env.goto url = Except.ok ())
    (hwait : ∀ w, wait_for = some w → env.waitForSelector w = Except.ok ()) :
    ∃ r, (ExtractData env url selectors wait_for (some attrs) s).1 = Except.ok r ∧
      r.attributes = some (attrs.map (fun p =>
        (p.1, collapse (attributeValues env p.1 p.2)))) ∧
      (∀ sel attr, attributeValues env sel attr =
        ((env.queryAll sel).filterMap (fun el => getAttribute el attr)).filter
          (fun v => v ≠ "")) ∧
      (∀ sel attr, (sel, attr) ∈ attrs →
        (∀ el ∈ env.queryAll sel, getAttribute el attr = none) →
        (sel, StrOrList.list []) ∈ attrs.map (fun p =>
          (p.1, collapse (attributeValues env p.1 p.2)))) := by
  refine ⟨_, by simpa [ExtractData, runOp] using
    extractDataBody_ok env url selectors wait_for (some attrs) hgoto hwait,
    rfl, fun sel attr => attributeValues_filter env sel attr, ?_⟩
  intro sel attr hmem hnone
  have hav : attributeValues env sel attr = [] := by
    rw [attributeValues_filter]
    have : (env.queryAll sel).filterMap (fun el => getAttribute el attr) = [] := by
      rw [List.filterMap_eq_nil_iff]
      exact hnone
    rw [this]
    rfl
  have : (sel, collapse (attributeValues env sel attr)) ∈ attrs.map (fun p =>
      (p.1, collapse (attributeValues env p.1 p.2))) :=
    List.mem_map_of_mem _ hmem
  simpa [hav] using this

/-- Closed instance of `extractData_attribute_filter`: both `li` matches
lack `data-id`, so the result for that selector is the empty list. -/
theorem extractData_attribute_filter_witness :
    ∃ r, (ExtractData envExtract "https://example.com" [] none
        (some [("li", "data-id")]) initState).1 = Except.ok r ∧
      r.attributes = some [("li", StrOrList.list [])] := by
  obtain ⟨r, h1, h2, -, -⟩ := extractData_attribute_filter envExtract
    "https://example.com" [] none [("li", "data-id")] initState rfl
    (fun w h => nomatch h)
  refine ⟨r, h1, ?_⟩
  rw [h2]
  decide

/-! ### FillForm theorems -/

/-- Looking up `sel` after replacing every entry keyed `sel` finds the
replacement, provided `sel` resolved before. -/
theorem lookup_map_set (l : List (String × FormElement)) (sel : String)
    (el' : FormElement) (h : (List.lookup sel l).isSome) :
    List.lookup sel (l.map (fun p => if p.1 = sel then (p.1, el') else p)) =
      some el' := by
  induction l with
  | nil => simp [List.lookup] at h
  | cons p tl ih =>
    obtain ⟨k, e⟩ := p
    by_cases hk : k = sel
    · subst hk
      simp only [List.map_cons, if_pos (show (k, e).1 = k from rfl)]
      rw [List.lookup]
      simp
    · have hk' : (sel == k) = false := by
        simp [Ne.symm hk]
      simp only [List.map_cons, if_neg hk]
      rw [List.lookup] at h ⊢
      rw [hk'] at h ⊢
      exact ih h

/-- C3: for every `FillForm` field whose live element is an input of type
`checkbox` or `radio`, the string value is interpreted case-insensitively
— `"true"`/`"1"`/`"yes"` set the checked state to true, anything else to
false — and the final checked state does not depend on the element's
prior state (an absolute set, never a toggle). -/
theorem fillForm_checkbox_radio_absolute (doc : FormPage) (sel v : String)
    (el : FormElement)
    (hlook : doc.elements.lookup sel = some el)
    (htag : el.tagName = "input")
    (hty : el.inputType = some "checkbox" ∨ el.inputType = some "radio") :
    fillFields doc [(sel, v)] = Except.ok (setElement doc sel (fillField el v)) ∧
    (setElement doc sel (fillField el v)).elements.lookup sel =
      some (fillField el v) ∧
    (fillField el v).checked =
      decide (lower v = "true" ∨ lower v = "1" ∨ lower v = "yes") := by
  refine ⟨?_, ?_, ?_⟩
  · simp [fillFields, List.foldlM, waitForSelector, hlook, Bind.bind, Except.bind,
      Pure.pure, Except.pure]
  · exact lookup_map_set _ _ _ (by rw [hlook]; rfl)
  · have hns : el.tagName ≠ "select" := by rw [htag]; decide
    rw [fillField, if_neg hns, if_pos hty]
    by_cases hv : lower v = "true" ∨ lower v = "1" ∨ lower v = "yes"
    · rw [if_pos hv]
      simp [hv]
    · rw [if_neg hv]
      simp [hv]

/-- Closed instance of `fillForm_checkbox_radio_absolute`: value `"YES"`
ends checked regardless of case, `"false"` ends unchecked even when the
checkbox started checked. -/
theorem fillForm_checkbox_radio_absolute_witness :
    fillFields formPage [("#agree", "YES")] =
      Except.ok (setElement formPage "#agree" (fillField checkboxEl "YES")) ∧
    (fillField checkboxEl "YES").checked = true ∧
    (fillField { checkboxEl with checked := true } "false").checked = false := by
  obtain ⟨h1, -, h3⟩ := fillForm_checkbox_radio_absolute formPage "#agree" "YES"
    checkboxEl (by decide) rfl (Or.inl rfl)
  obtain ⟨-, -, h4⟩ := fillForm_checkbox_radio_absolute
    { formPage with elements := [("#agree", { checkboxEl with checked := true })] }
    "#agree" "false" { checkboxEl with checked := true } (by decide) rfl (Or.inl rfl)
  refine ⟨h1, ?_, ?_⟩
  · rw [h3]
    decide
  · rw [h4]
    decide

/-- C8 counterexample: the claim says the returned `url` is captured from
the page after the submit click; here the submit click navigates to
`donePage` at `https://example.com/done`, yet the returned `url` is the
caller-supplied `https://example.com/form`. -/
theorem fillForm_result_url_counterexample :
    (FillForm envFill "https://example.com/form" [("#name", "Alice")] "#submit"
        none false initState).1 =
      Except.ok { success := true
                  url := "https://example.com/form"
                  title := "Thanks"
                  screenshot_path := none } ∧
    envFill.click (setElement formPage "#name" (fillField textEl "Alice")) =
      Except.ok donePage ∧
    donePage.url = "https://example.com/done" ∧
    ("https://example.com/form" : String) ≠ "https://example.com/done" := by
  refine ⟨rfl, rfl, rfl, by decide⟩

/-- C8 (amended): for every successful `FillForm` call, the returned
`title` is captured from the page after the submit click (and after the
post-submit wait, when given), while the returned `url` is the
caller-supplied input url, which may differ from the document's
post-submit location. -/
theorem fillForm_result_url_title (env : FillFormEnv) (url : String)
    (form_data : List (String × String)) (submit_button : String)
    (wait_after_submit : Option String) (screenshot_result : Bool)
    (s : SessionState) (doc₀ doc₁ doc₂ : FormPage)
    (hgoto : env.goto url = Except.ok doc₀)
    (hfill : fillFields doc₀ form_data = Except.ok doc₁)
    (hsubmit : (doc₁.elements.lookup submit_button).isSome)
    (hclick : env.click doc₁ = Except.ok doc₂)
    (hwait : ∀ w, wait_after_submit = some w → (doc₂.elements.lookup w).isSome)
    (hshot : ∀ p, env.screenshot p = Except.ok ()) :
    ∃ r, (FillForm env url form_data submit_button wait_after_submit
        screenshot_result s).1 = Except.ok r ∧
      r.title = doc₂.title ∧ r.url = url := by
  obtain ⟨elS, helS⟩ := Option.isSome_iff_exists.mp hsubmit
  rcases wait_after_submit with _ | w
  · cases screenshot_result
    · refine ⟨{ success := true, url := url, title := doc₂.title, screenshot_path := none }, ?_, rfl, rfl⟩
      simp [FillForm, runOp, fillFormBody, hgoto, hfill, hclick,
        waitForSelector, helS, Bind.bind, Except.bind, Pure.pure, Except.pure]
    · refine ⟨{ success := true, url := url, title := doc₂.title, screenshot_path := some (env.screenshotsDir ++ "/form_result_" ++ env.fileTimestamp ++ ".png") }, ?_, rfl, rfl⟩
      simp [FillForm, runOp, fillFormBody, hgoto, hfill, hclick,
        waitForSelector, helS, hshot, Bind.bind, Except.bind, Pure.pure,
        Except.pure]
  · obtain ⟨elW, helW⟩ := Option.isSome_iff_exists.mp (hwait w rfl)
    cases screenshot_result
    · refine ⟨{ success := true, url := url, title := doc₂.title, screenshot_path := none }, ?_, rfl, rfl⟩
      simp [FillForm, runOp, fillFormBody, hgoto, hfill, hclick,
        waitForSelector, helS, helW, Bind.bind, Except.bind, Pure.pure,
        Except.pure]
    · refine ⟨{ success := true, url := url, title := doc₂.title, screenshot_path := some (env.screenshotsDir ++ "/form_result_" ++ env.fileTimestamp ++ ".png") }, ?_, rfl, rfl⟩
      simp [FillForm, runOp, fillFormBody, hgoto, hfill, hclick,
        waitForSelector, helS, helW, hshot, Bind.bind, Except.bind, Pure.pure,
        Except.pure]

/-- Closed instance of `fillForm_result_url_title`: the returned title is
the post-submit page's title and the returned url the input url. -/
theorem fillForm_result_url_title_witness :
    ∃ r, (FillForm envFill "https://example.com/form" [("#name", "Alice")]
        "#submit" none false initState).1 = Except.ok r ∧
      r.title = donePage.title ∧ r.url = "https://example.com/form" :=
  fillForm_result_url_title envFill "https://example.com/form"
    [("#name", "Alice")] "#submit" none false initState formPage
    (setElement formPage "#name" (fillField textEl "Alice")) donePage rfl
    rfl (by decide) rfl (fun w h => nomatch h) (fun p => rfl)

/-! ### Error-propagation helpers -/

/-- A failed navigation propagates through `Visit`'s body as the raised
message. -/
theorem visitBody_goto_error (env : VisitEnv) (url : String)
    (wait_for : Option String) (extract_text extract_html screenshot : Bool)
    (javascript : Option String) (m : String)
    (h : env.goto url = Except.error m) :
    visitBody env url wait_for extract_text extract_html screenshot javascript =
      Except.error m := by
  simp [visitBody, h, Bind.bind, Except.bind]

/-- A failed navigation propagates through `FillForm`'s body as the
raised message. -/
theorem fillFormBody_goto_error (env : FillFormEnv) (url : String)
    (form_data : List (String × String)) (submit_button : String)
    (wait_after_submit : Option String) (screenshot_result : Bool) (m : String)
    (h : env.goto url = Except.error m) :
    fillFormBody env url form_data submit_button wait_after_submit
      screenshot_result = Except.error m := by
  simp [fillFormBody, h, Bind.bind, Except.bind]

/-- A failed navigation propagates through `ExtractData`'s body as the
raised message. -/
theorem extractDataBody_goto_error (env : ExtractEnv) (url : String)
    (selectors : List (String × String)) (wait_for : Option String)
    (ea : Option (List (String × String))) (m : String)
    (h : env.goto url = Except.error m) :
    extractDataBody env url selectors wait_for ea = Except.error m := by
  simp [extractDataBody, h, Bind.bind, Except.bind]

/-! ### Monitor loop lemmas -/

/-- With `interval ≥ 1` the polling loop never exhausts fuel covering the
remaining time budget. -/
theorem monitorLoop_isSome (env : MonitorEnv) (interval max_time : Int)
    (scb : Bool) (hiv : 1 ≤ interval) :
    ∀ (fuel elapsed polls : Nat) (baseline : String)
      (changes : List ChangeRecord), max_time.toNat ≤ elapsed + fuel →
      (monitorLoop env interval max_time scb baseline changes elapsed
        polls fuel).isSome := by
  intro fuel
  induction fuel with
  | zero =>
    intro elapsed polls baseline changes hle
    have hnl : ¬((elapsed : Int) < max_time) := by
      have h1 : max_time ≤ (max_time.toNat : Int) := Int.self_le_toNat _
      have h2 : (max_time.toNat : Int) ≤ (elapsed : Int) := by
        exact_mod_cast (by omega : max_time.toNat ≤ elapsed)
      omega
    simp [monitorLoop, hnl]
  | succ n ih =>
    intro elapsed polls baseline changes hle
    have hiv1 : 1 ≤ interval.toNat := Int.toNat_le_toNat hiv
    by_cases hlt : (elapsed : Int) < max_time
    · rw [monitorLoop, if_pos hlt]
      cases hpb : pollBody env scb baseline (elapsed + interval.toNat) with
      | ok pr =>
        obtain ⟨rc, bl⟩ := pr
        simp only [hpb]
        exact ih (elapsed + interval.toNat) (polls + 1) bl _ (by omega)
      | error e =>
        simp only [hpb]
        exact ih (elapsed + interval.toNat) (polls + 1) baseline _ (by omega)
    · rw [monitorLoop, if_neg hlt]
      rfl

/-- The polling loop exits exactly at the first elapsed value at or past
the budget: the result's elapsed time is `≥ max_time`; it stays below
`max_time + interval` when polling actually started, and equals the
starting elapsed time when the budget was already exhausted. -/
theorem monitorLoop_elapsed_bound (env : MonitorEnv) (interval max_time : Int)
    (scb : Bool) (hiv : 1 ≤ interval) :
    ∀ (fuel elapsed polls : Nat) (baseline : String)
      (changes : List ChangeRecord) (out : LoopOut),
      monitorLoop env interval max_time scb baseline changes elapsed polls
        fuel = some out →
      max_time ≤ (out.elapsed : Int) ∧
      ((elapsed : Int) < max_time → (out.elapsed : Int) < max_time + interval) ∧
      (¬((elapsed : Int) < max_time) → out.elapsed = elapsed) := by
  intro fuel
  induction fuel with
  | zero =>
    intro elapsed polls baseline changes out h
    by_cases hlt : (elapsed : Int) < max_time
    · rw [monitorLoop, if_pos hlt] at h
      exact absurd h (by simp)
    · rw [monitorLoop, if_neg hlt] at h
      have hE : out.elapsed = elapsed := by rw [← Option.some.inj h]
      refine ⟨?_, fun hc => absurd hc hlt, fun _ => hE⟩
      rw [hE]
      omega
  | succ n ih =>
    intro elapsed polls baseline changes out h
    have hcast : ((elapsed + interval.toNat : Nat) : Int) =
        (elapsed : Int) + interval := by
      push_cast [Int.toNat_of_nonneg (by omega : (0 : Int) ≤ interval)]
      ring
    by_cases hlt : (elapsed : Int) < max_time
    · rw [monitorLoop, if_pos hlt] at h
      have step : ∀ bl ch, monitorLoop env interval max_time scb bl ch
          (elapsed + interval.toNat) (polls + 1) n = some out →
          max_time ≤ (out.elapsed : Int) ∧
          ((out.elapsed : Int) < max_time + interval) := by
        intro bl ch hm
        obtain ⟨h1, h2, h3⟩ := ih (elapsed + interval.toNat) (polls + 1) bl ch out hm
        refine ⟨h1, ?_⟩
        by_cases hlt2 : ((elapsed + interval.toNat : Nat) : Int) < max_time
        · exact h2 hlt2
        · rw [h3 hlt2, hcast]
          omega
      cases hpb : pollBody env scb baseline (elapsed + interval.toNat) with
      | ok pr =>
        obtain ⟨rc, bl⟩ := pr
        simp only [hpb] at h
        obtain ⟨h1, h2⟩ := step bl _ h
        exact ⟨h1, fun _ => h2, fun hc => absurd hlt hc⟩
      | error e =>
        simp only [hpb] at h
        obtain ⟨h1, h2⟩ := step baseline _ h
        exact ⟨h1, fun _ => h2, fun hc => absurd hlt hc⟩
    · rw [monitorLoop, if_neg hlt] at h
      have hE : out.elapsed = elapsed := by rw [← Option.some.inj h]
      refine ⟨?_, fun hc => absurd hc hlt, fun _ => hE⟩
      rw [hE]
      omega

/-- The poll counter only grows along the loop. -/
theorem monitorLoop_polls_le (env : MonitorEnv) (interval max_time : Int)
    (scb : Bool) :
    ∀ (fuel elapsed polls : Nat) (baseline : String)
      (changes : List ChangeRecord) (out : LoopOut),
      monitorLoop env interval max_time scb baseline changes elapsed polls
        fuel = some out → polls ≤ out.polls := by
  intro fuel
  induction fuel with
  | zero =>
    intro elapsed polls baseline changes out h
    by_cases hlt : (elapsed : Int) < max_time
    · rw [monitorLoop, if_pos hlt] at h
      exact absurd h (by simp)
    · rw [monitorLoop, if_neg hlt] at h
      rw [← Option.some.inj h]
  | succ n ih =>
    intro elapsed polls baseline changes out h
    by_cases hlt : (elapsed : Int) < max_time
    · rw [monitorLoop, if_pos hlt] at h
      cases hpb : pollBody env scb baseline (elapsed + interval.toNat) with
      | ok pr =>
        obtain ⟨rc, bl⟩ := pr
        simp only [hpb] at h
        exact Nat.le_of_succ_le (ih _ _ bl _ out h)
      | error e =>
        simp only [hpb] at h
        exact Nat.le_of_succ_le (ih _ _ baseline _ out h)
    · rw [monitorLoop, if_neg hlt] at h
      rw [← Option.some.inj h]

/-- Whenever time remains, the loop executes at least one further poll
iteration. -/
theorem monitorLoop_polls_succ (env : MonitorEnv) (interval max_time : Int)
    (scb : Bool) :
    ∀ (fuel elapsed polls : Nat) (baseline : String)
      (changes : List ChangeRecord) (out : LoopOut),
      monitorLoop env interval max_time scb baseline changes elapsed polls
        fuel = some out → (elapsed : Int) < max_time →
      polls + 1 ≤ out.polls := by
  intro fuel elapsed polls baseline changes out h hlt
  cases fuel with
  | zero =>
    rw [monitorLoop, if_pos hlt] at h
    exact absurd h (by simp)
  | succ n =>
    rw [monitorLoop, if_pos hlt] at h
    cases hpb : pollBody env scb baseline (elapsed + interval.toNat) with
    | ok pr =>
      obtain ⟨rc, bl⟩ := pr
      simp only [hpb] at h
      exact monitorLoop_polls_le env interval max_time scb n _ _ bl _ out h
    | error e =>
      simp only [hpb] at h
      exact monitorLoop_polls_le env interval max_time scb n _ _ baseline _ out h

/-! ### Error handling (C4) -/

/-- C4: every top-level operation returns either a success dict or the
uniform error dict — never an unhandled failure — and an internal failure
(here a navigation failure) surfaces as `error` carrying the raised
message, for all four operations. -/
theorem operations_uniform_error_result
    (envV : VisitEnv) (envE : ExtractEnv) (envF : FillFormEnv) (envM : MonitorEnv)
    (url submit_button selector : String)
    (wait_for wait_after_submit javascript : Option String)
    (extract_text extract_html screenshot screenshot_result screenshot_changes : Bool)
    (form_data selectors : List (String × String))
    (extract_attributes : Option (List (String × String)))
    (interval max_time : Int) (s : SessionState) (m : String) :
    ((∃ r, (Visit envV url wait_for extract_text extract_html screenshot
        javascript s).1 = Except.ok r) ∨
     (∃ e, (Visit envV url wait_for extract_text extract_html screenshot
        javascript s).1 = Except.error e)) ∧
    ((∃ r, (FillForm envF url form_data submit_button wait_after_submit
        screenshot_result s).1 = Except.ok r) ∨
     (∃ e, (FillForm envF url form_data submit_button wait_after_submit
        screenshot_result s).1 = Except.error e)) ∧
    ((∃ r, (ExtractData envE url selectors wait_for extract_attributes s).1 =
        Except.ok r) ∨
     (∃ e, (ExtractData envE url selectors wait_for extract_attributes s).1 =
        Except.error e)) ∧
    (1 ≤ interval →
      (∃ r, (MonitorChanges envM url selector interval max_time
        screenshot_changes s).1 = some (Except.ok r)) ∨
      (∃ e, (MonitorChanges envM url selector interval max_time
        screenshot_changes s).1 = some (Except.error e))) ∧
    (envV.goto url = Except.error m →
      (Visit envV url wait_for extract_text extract_html screenshot
        javascript s).1 = Except.error m) ∧
    (envF.goto url = Except.error m →
      (FillForm envF url form_data submit_button wait_after_submit
        screenshot_result s).1 = Except.error m) ∧
    (envE.goto url = Except.error m →
      (ExtractData envE url selectors wait_for extract_attributes s).1 =
        Except.error m) ∧
    (envM.goto url = Except.error m →
      (MonitorChanges envM url selector interval max_time
        screenshot_changes s).1 = some (Except.error m)) := by
  refine ⟨?_, ?_, ?_, ?_, ?_, ?_, ?_, ?_⟩
  · cases hv : visitBody envV url wait_for extract_text extract_html screenshot
        javascript with
    | ok r => exact Or.inl ⟨r, hv⟩
    | error e => exact Or.inr ⟨e, hv⟩
  · cases hf : fillFormBody envF url form_data submit_button wait_after_submit
        screenshot_result with
    | ok r => exact Or.inl ⟨r, hf⟩
    | error e => exact Or.inr ⟨e, hf⟩
  · cases he : extractDataBody envE url selectors wait_for extract_attributes with
    | ok r => exact Or.inl ⟨r, he⟩
    | error e => exact Or.inr ⟨e, he⟩
  · intro hiv
    cases hc : (do
        envM.goto url
        envM.waitForSelector selector
        envM.readContent 0 : Except String String) with
    | error e =>
      refine Or.inr ⟨e, ?_⟩
      show monitorBody envM url selector interval max_time screenshot_changes = _
      simp only [monitorBody, hc]
    | ok init =>
      have hs := monitorLoop_isSome envM interval max_time screenshot_changes hiv
        (max_time.toNat + 1) 0 0 init [] (by omega)
      obtain ⟨out, hout⟩ := Option.isSome_iff_exists.mp hs
      refine Or.inl ⟨{ success := true, url := url, selector := selector, monitoring_duration := out.elapsed, changes := out.changes }, ?_⟩
      show monitorBody envM url selector interval max_time screenshot_changes = _
      simp only [monitorBody, hc, hout]
  · intro h
    exact visitBody_goto_error envV url wait_for extract_text extract_html
      screenshot javascript m h
  · intro h
    exact fillFormBody_goto_error envF url form_data submit_button
      wait_after_submit screenshot_result m h
  · intro h
    exact extractDataBody_goto_error envE url selectors wait_for
      extract_attributes m h
  · intro h
    show monitorBody envM url selector interval max_time screenshot_changes = _
    simp [monitorBody, h, Bind.bind, Except.bind]

/-- Closed instance of `operations_uniform_error_result`: all four
operations with a failing navigation return the uniform error dict. -/
theorem operations_uniform_error_result_witness :
    (Visit envVisitFail "https://bad.invalid" none true false false none
      initState).1 = Except.error "net::ERR_NAME_NOT_RESOLVED" ∧
    (FillForm envFillFail "https://bad.invalid" [] "#submit" none false
      initState).1 = Except.error "net::ERR_NAME_NOT_RESOLVED" ∧
    (ExtractData envExtractFail "https://bad.invalid" [] none none
      initState).1 = Except.error "net::ERR_NAME_NOT_RESOLVED" ∧
    (MonitorChanges envMonitorFail "https://bad.invalid" ".price" 1 3 false
      initState).1 = some (Except.error "net::ERR_NAME_NOT_RESOLVED") := by
  obtain ⟨-, -, -, -, h5, h6, h7, h8⟩ := operations_uniform_error_result
    envVisitFail envExtractFail envFillFail envMonitorFail
    "https://bad.invalid" "#submit" ".price" none none none
    true false false false false [] [] none 1 3 initState
    "net::ERR_NAME_NOT_RESOLVED"
  exact ⟨h5 rfl, h6 rfl, h7 rfl, h8 rfl⟩

/-! ### Change Monitor claims (C5, C6, C10) -/

/-- C5: a read failure during a polling iteration appends an
error-bearing `ChangeRecord`, leaves the baseline unchanged, and does not
abort the loop — when time remains the next iteration still executes —
whereas a failure during the INIT phase (navigation, selector wait, or
baseline read) aborts the call as a top-level error result. -/
theorem monitorChanges_poll_failure_nonfatal
    (env : MonitorEnv) (url selector : String) (interval max_time : Int)
    (scb : Bool) (s : SessionState) (baseline : String)
    (changes : List ChangeRecord) (elapsed polls fuel : Nat) (e m : String) :
    ((elapsed : Int) < max_time →
      env.readContent (elapsed + interval.toNat) = Except.error e →
      monitorLoop env interval max_time scb baseline changes elapsed polls
        (fuel + 1) =
      monitorLoop env interval max_time scb baseline
        (changes ++ [ChangeRecord.error
          (env.isoTimestamp (elapsed + interval.toNat)) e])
        (elapsed + interval.toNat) (polls + 1) fuel) ∧
    (∀ out, (elapsed : Int) < max_time →
      env.readContent (elapsed + interval.toNat) = Except.error e →
      ((elapsed + interval.toNat : Nat) : Int) < max_time →
      monitorLoop env interval max_time scb baseline changes elapsed polls
        (fuel + 1) = some out →
      polls + 2 ≤ out.polls) ∧
    (env.goto url = Except.error m →
      (MonitorChanges env url selector interval max_time scb s).1 =
        some (Except.error m)) ∧
    (env.goto url = Except.ok () → env.waitForSelector selector = Except.error m →
      (MonitorChanges env url selector interval max_time scb s).1 =
        some (Except.error m)) ∧
    (env.goto url = Except.ok () → env.waitForSelector selector = Except.ok () →
      env.readContent 0 = Except.error m →
      (MonitorChanges env url selector interval max_time scb s).1 =
        some (Except.error m)) := by
  have hstep : (elapsed : Int) < max_time →
      env.readContent (elapsed + interval.toNat) = Except.error e →
      monitorLoop env interval max_time scb baseline changes elapsed polls
        (fuel + 1) =
      monitorLoop env interval max_time scb baseline
        (changes ++ [ChangeRecord.error
          (env.isoTimestamp (elapsed + interval.toNat)) e])
        (elapsed + interval.toNat) (polls + 1) fuel := by
    intro hlt hread
    rw [monitorLoop, if_pos hlt]
    have hpb : pollBody env scb baseline (elapsed + interval.toNat) =
        Except.error e := by
      simp [pollBody, hread, Bind.bind, Except.bind]
    simp only [hpb]
  refine ⟨hstep, ?_, ?_, ?_, ?_⟩
  · intro out hlt hread hlt2 h
    rw [hstep hlt hread] at h
    exact monitorLoop_polls_succ env interval max_time scb fuel _ _ baseline
      _ out h hlt2
  · intro h
    show monitorBody env url selector interval max_time scb = _
    simp [monitorBody, h, Bind.bind, Except.bind]
  · intro hg h
    show monitorBody env url selector interval max_time scb = _
    simp [monitorBody, hg, h, Bind.bind, Except.bind]
  · intro hg hw h
    show monitorBody env url selector interval max_time scb = _
    simp [monitorBody, hg, hw, h, Bind.bind, Except.bind]

/-- Closed instance of `monitorChanges_poll_failure_nonfatal`: with a
read failure at second 1 and budget 2, the error record is appended, the
baseline is kept, and a second poll iteration still runs; an INIT-phase
navigation failure aborts the whole call. -/
theorem monitorChanges_poll_failure_nonfatal_witness :
    monitorLoop envMonitorFlaky 1 2 false "$19.99" [] 0 0 3 =
      monitorLoop envMonitorFlaky 1 2 false "$19.99"
        [ChangeRecord.error (envMonitorFlaky.isoTimestamp 1)
          "Execution context was destroyed"] 1 1 2 ∧
    (0 : Nat) + 2 ≤ (LoopOut.mk
      [ChangeRecord.error (envMonitorFlaky.isoTimestamp 1)
        "Execution context was destroyed"] 2 2).polls ∧
    (MonitorChanges envMonitorFail "https://example.com" ".price" 1 3 false
      initState).1 = some (Except.error "net::ERR_NAME_NOT_RESOLVED") := by
  obtain ⟨h1, h2, h3, -, -⟩ := monitorChanges_poll_failure_nonfatal
    envMonitorFlaky "https://example.com" ".price" 1 2 false initState
    "$19.99" [] 0 0 2 "Execution context was destroyed"
    "net::ERR_NAME_NOT_RESOLVED"
  obtain ⟨-, -, h3', -, -⟩ := monitorChanges_poll_failure_nonfatal
    envMonitorFail "https://example.com" ".price" 1 3 false initState
    "$19.99" [] 0 0 2 "e" "net::ERR_NAME_NOT_RESOLVED"
  refine ⟨h1 (by decide) rfl, ?_, h3' rfl⟩
  exact h2 (LoopOut.mk
      [ChangeRecord.error (envMonitorFlaky.isoTimestamp 1)
        "Execution context was destroyed"] 2 2)
    (by decide) rfl (by decide) (by decide)

/-- C6: with a positive polling interval, `MonitorChanges` terminates
exactly by its time budget: the loop exits at the first elapsed time at
or past `max_time` (below `max_time + interval` when polling started at
all), and the returned `monitoring_duration` equals that elapsed whole
second count. -/
theorem monitorChanges_time_budget
    (env : MonitorEnv) (url selector : String) (interval max_time : Int)
    (scb : Bool) (s : SessionState) (init : String)
    (hiv : 1 ≤ interval)
    (hgoto : env.goto url = Except.ok ())
    (hwait : env.waitForSelector selector = Except.ok ())
    (hread0 : env.readContent 0 = Except.ok init) :
    ∃ out, monitorLoop env interval max_time scb init [] 0 0
        (max_time.toNat + 1) = some out ∧
      max_time ≤ (out.elapsed : Int) ∧
      ((0 : Int) < max_time → (out.elapsed : Int) < max_time + interval) ∧
      (max_time ≤ 0 → out.elapsed = 0) ∧
      (MonitorChanges env url selector interval max_time scb s).1 =
        some (Except.ok { success := true, url := url, selector := selector, monitoring_duration := out.elapsed, changes := out.changes }) := by
  have hs := monitorLoop_isSome env interval max_time scb hiv
    (max_time.toNat + 1) 0 0 init [] (by omega)
  obtain ⟨out, hout⟩ := Option.isSome_iff_exists.mp hs
  obtain ⟨h1, h2, h3⟩ := monitorLoop_elapsed_bound env interval max_time scb hiv
    (max_time.toNat + 1) 0 0 init [] out hout
  refine ⟨out, hout, h1, ?_, ?_, ?_⟩
  · intro hpos
    exact h2 (by exact_mod_cast hpos)
  · intro hnp
    exact h3 (by omega)
  · show monitorBody env url selector interval max_time scb = _
    simp only [monitorBody, hgoto, hwait, hread0, Bind.bind, Except.bind, hout]

/-- Closed instance of `monitorChanges_time_budget`:
`MonitorChanges(url, selector, interval=1, max_time=3)` over unchanging
content returns `changes=[]` and `monitoring_duration=3`. -/
theorem monitorChanges_time_budget_witness :
    (MonitorChanges envMonitor "https://example.com" ".price" 1 3 false
      initState).1 = some (Except.ok
        { success := true, url := "https://example.com", selector := ".price", monitoring_duration := 3, changes := [] }) := by
  obtain ⟨out, hloop, -, -, -, hres⟩ := monitorChanges_time_budget envMonitor
    "https://example.com" ".price" 1 3 false initState "$19.99"
    (by decide) rfl rfl rfl
  have h2 : monitorLoop envMonitor 1 3 false "$19.99" [] 0 0
      ((3 : Int).toNat + 1) = some (LoopOut.mk [] 3 3) := by decide
  rw [h2] at hloop
  rw [← Option.some.inj hloop] at hres
  exact hres

/-- C10: with `max_time ≤ 0`, the budget check precedes the first sleep:
after a successful INIT phase the call returns success with `changes=[]`
and zero duration, and the loop executes no poll iteration at all (the
poll counter stays 0). -/
theorem monitorChanges_nonpositive_budget
    (env : MonitorEnv) (url selector : String) (interval max_time : Int)
    (scb : Bool) (s : SessionState) (init : String)
    (hmt : max_time ≤ 0)
    (hgoto : env.goto url = Except.ok ())
    (hwait : env.waitForSelector selector = Except.ok ())
    (hread0 : env.readContent 0 = Except.ok init) :
    monitorLoop env interval max_time scb init [] 0 0 (max_time.toNat + 1) =
      some (LoopOut.mk [] 0 0) ∧
    (MonitorChanges env url selector interval max_time scb s).1 =
      some (Except.ok { success := true, url := url, selector := selector, monitoring_duration := 0, changes := [] }) := by
  have hnl : ¬((0 : Nat) : Int) < max_time := by
    simp only [Nat.cast_zero]
    omega
  have htn : max_time.toNat = 0 := Int.toNat_eq_zero.mpr hmt
  have hloop : monitorLoop env interval max_time scb init [] 0 0
      (max_time.toNat + 1) = some (LoopOut.mk [] 0 0) := by
    rw [htn, monitorLoop, if_neg hnl]
  refine ⟨hloop, ?_⟩
  show monitorBody env url selector interval max_time scb = _
  simp only [monitorBody, hgoto, hwait, hread0, Bind.bind, Except.bind, hloop]

/-- Closed instance of `monitorChanges_nonpositive_budget` at
`max_time = -2`: no poll iteration runs, the result is success with no
changes and zero duration. -/
theorem monitorChanges_nonpositive_budget_witness :
    monitorLoop envMonitor 1 (-2) false "$19.99" [] 0 0 ((-2 : Int).toNat + 1) =
      some (LoopOut.mk [] 0 0) ∧
    (MonitorChanges envMonitor "https://example.com" ".price" 1 (-2) false
      initState).1 = some (Except.ok
        { success := true, url := "https://example.com", selector := ".price", monitoring_duration := 0, changes := [] }) :=
  monitorChanges_nonpositive_budget envMonitor "https://example.com" ".price"
    1 (-2) false initState "$19.99" (by decide) rfl rfl rfl

end BrowserTool
